import Mathlib

/-!
Verification of the async tarpit server (asynctarpit.py).

The program accepts TCP connections and, per connection, runs `tarpit_handler`:
it records the peer address, registers the connection in the module-level set
`active_connections`, then loops forever writing one random byte, draining the
transport, and sleeping `DELAY` seconds.  A failure raised inside the loop is
classified against the tuple `_SUPPRESSED = (ConnectionResetError,
ConnectionAbortedError, BrokenPipeError)`: a suppressed error logs
"Connection lost" at info level, any other `Exception` logs at error level,
and anything that is not an `Exception` (such as `asyncio.CancelledError`,
which derives `BaseException`) is caught by neither branch.  A `finally`
block discards the connection from the registry, closes the socket if it is
not already closing, awaits `wait_closed` (suppressing the same errors plus
`OSError`), and logs "Connection closed".  The module also installs
`_quiet_exception_handler` as the event loop's exception handler: it swallows
suppressed transport errors and forwards every other context to the
previously installed handler, or to the loop's default handler if none was
installed.

The embedding below models one handler execution as a trace of observable
events.  The environment's behaviour is a script: for each loop iteration it
says whether the write, the drain and the sleep succeed, and which error is
raised at the first failing step (`asyncio.sleep` itself only ever raises
`CancelledError`, so a failure at the sleep is modelled as cancellation).
The registry is a finite set of connection identifiers, evolved by replaying
the registry events of the trace.
-/

namespace AsyncTarpit

/-- Bind address from the configuration block of asynctarpit.py. -/
def HOST : String := "0.0.0.0"

/-- Listening port from the configuration block of asynctarpit.py. -/
def PORT : Nat := 2222

/-- Seconds between sending bytes (asynctarpit.py, `DELAY = 10`). -/
def DELAY : Nat := 10

/-- Python exceptions relevant to the handler, by the categories the code
distinguishes.  `connectionReset`, `connectionAborted` and `brokenPipe` are the
members of the `_SUPPRESSED` tuple; `otherOSError` is any other `OSError`;
`otherException` is an `Exception` outside the `OSError` hierarchy;
`cancelled` is `asyncio.CancelledError`, which derives `BaseException` but not
`Exception` (Python >= 3.8). -/
inductive PyError
  | connectionReset
  | connectionAborted
  | brokenPipe
  | otherOSError
  | otherException
  | cancelled
  deriving DecidableEq

/-- The isinstance check against the tuple
`_SUPPRESSED = (ConnectionResetError, ConnectionAbortedError, BrokenPipeError)`
(asynctarpit.py line 18). -/
def _SUPPRESSED : PyError → Bool
  | .connectionReset => true
  | .connectionAborted => true
  | .brokenPipe => true
  | _ => false

/-- Whether the error is a Python `Exception` (everything modelled here except
`CancelledError`, which derives `BaseException` directly). -/
def isException : PyError → Bool
  | .cancelled => false
  | _ => true

/-- Whether the error is an `OSError`: the three connection errors are
subclasses of `OSError`, as is `otherOSError`. -/
def isOSError : PyError → Bool
  | .connectionReset => true
  | .connectionAborted => true
  | .brokenPipe => true
  | .otherOSError => true
  | _ => false

/-- Observable events of one handler execution, in program order.  Log events
carry exactly the data the corresponding f-string interpolates: the trapped
and closed lines carry ip and port, the lost line only the ip, the error line
the ip and the error. -/
inductive Event
  | logTrapped (ip : String) (port : Nat)
  | write (bs : List Nat)
  | drain
  | sleep (d : Nat)
  | logLost (ip : String)
  | logError (ip : String) (e : PyError)
  | regAdd (w : Nat)
  | regDiscard (w : Nat)
  | close
  | waitClosed
  | logClosed (ip : String) (port : Nat)
  deriving DecidableEq

/-- Log severities used by the program (`logging.info` / `logging.error`). -/
inductive Severity
  | info
  | error
  deriving DecidableEq

/-- Severity of a log event; `none` for non-logging events. -/
def logSeverity : Event → Option Severity
  | .logTrapped _ _ => some .info
  | .logLost _ => some .info
  | .logError _ _ => some .error
  | .logClosed _ _ => some .info
  | _ => none

/-- Environment behaviour of one drip-loop iteration: every step succeeds
(`ok b` writes the random byte `b`), the synchronous `writer.write` raises,
`await writer.drain()` raises, or the task is cancelled while suspended in
`await asyncio.sleep(DELAY)` (the only failure `asyncio.sleep` produces). -/
inductive IterResult
  | ok (b : Nat)
  | failWrite (e : PyError)
  | failDrain (b : Nat) (e : PyError)
  | cancelledAtSleep (b : Nat)
  deriving DecidableEq

/-- Whether the iteration completed all three steps. -/
def IterResult.isOk : IterResult → Bool
  | .ok _ => true
  | _ => false

/-- The `while True: write one byte; drain; sleep DELAY` loop of
`tarpit_handler`, run against a finite script of iteration outcomes.  Returns
the events that happened and the error that ended the loop; `none` means the
script was exhausted with the loop still running (the loop itself has no exit
other than a raised error). -/
def dripLoop (delay : Nat) : List IterResult → List Event × Option PyError
  | [] => ([], none)
  | .ok b :: rest =>
      let r := dripLoop delay rest
      (Event.write [b] :: Event.drain :: Event.sleep delay :: r.1, r.2)
  | .failWrite e :: _ => ([], some e)
  | .failDrain b e :: _ => ([Event.write [b]], some e)
  | .cancelledAtSleep b :: _ => ([Event.write [b], Event.drain], some .cancelled)

/-- `writer.get_extra_info("peername")` handling: the peer address when the
transport reports one, otherwise the placeholder `("unknown", 0)`
(asynctarpit.py lines 34-35). -/
def clientOf : Option (String × Nat) → String × Nat
  | some p => p
  | none => ("unknown", 0)

/-- Events produced by the handler's two `except` clauses for the error that
ended the loop: `except _SUPPRESSED` logs "Connection lost", `except
Exception` logs the error, and anything else is caught by neither. -/
def exceptEvents (ip : String) (e : PyError) : List Event :=
  if _SUPPRESSED e then [Event.logLost ip]
  else if isException e then [Event.logError ip e]
  else []

/-- The exception still pending after the `except` clauses: `none` when one of
the clauses caught it, the error itself when neither did. -/
def pendingErr (e : PyError) : Option PyError :=
  if _SUPPRESSED e then none
  else if isException e then none
  else some e

/-- Whether `except (*_SUPPRESSED, OSError)` around `await writer.wait_closed()`
catches the error. -/
def waitClosedCaught (e : PyError) : Bool := _SUPPRESSED e || isOSError e

/-- Whether the error raised by `wait_closed` (if any) escapes the `finally`
block. -/
def wcPropagates : Option PyError → Bool
  | none => false
  | some e => ! waitClosedCaught e

/-- Events of the `finally` block: discard from the registry, close the
socket unless it is already closing, await `wait_closed`, and (unless
`wait_closed` raised an uncaught error) log "Connection closed". -/
def finallyEvents (wid : Nat) (ip : String) (port : Nat) (isClosing : Bool)
    (wcErr : Option PyError) : List Event :=
  Event.regDiscard wid ::
    ((if isClosing then [] else [Event.close]) ++
      Event.waitClosed ::
        (if wcPropagates wcErr then [] else [Event.logClosed ip port]))

/-- How one handler execution terminates: a normal return, or an exception
propagating to the task that ran the coroutine. -/
inductive HandlerOutcome
  | normal
  | propagated (e : PyError)
  deriving DecidableEq

/-- The handler's termination status, by Python's `try`/`except`/`finally`
semantics: an error raised inside the `finally` block replaces any pending
error; otherwise the pending error (if the `except` clauses caught nothing)
re-raises after the `finally` block completes. -/
def outcomeOf (e : PyError) (wcErr : Option PyError) : HandlerOutcome :=
  match wcErr with
  | some e2 =>
      if waitClosedCaught e2 then
        match pendingErr e with
        | some p => .propagated p
        | none => .normal
      else .propagated e2
  | none =>
      match pendingErr e with
      | some p => .propagated p
      | none => .normal

/-- One execution of `tarpit_handler` (asynctarpit.py lines 33-57) against an
environment script.  `wid` identifies the writer object, `pn` is what
`get_extra_info("peername")` returned, `isClosing` is the value of
`writer.is_closing()` at cleanup time and `wcErr` the error raised by
`writer.wait_closed()` (if any).  Returns the event trace and the outcome;
outcome `none` means the script was exhausted with the handler still inside
the drip loop (the `finally` block has not run yet). -/
def tarpit_handler (delay : Nat) (wid : Nat) (pn : Option (String × Nat))
    (script : List IterResult) (isClosing : Bool) (wcErr : Option PyError) :
    List Event × Option HandlerOutcome :=
  let c := clientOf pn
  let lr := dripLoop delay script
  match lr.2 with
  | none => (Event.logTrapped c.1 c.2 :: Event.regAdd wid :: lr.1, none)
  | some e =>
      (Event.logTrapped c.1 c.2 :: Event.regAdd wid ::
        (lr.1 ++ exceptEvents c.1 e ++ finallyEvents wid c.1 c.2 isClosing wcErr),
       some (outcomeOf e wcErr))

/-- The registry `active_connections` is a Python `set` of writer objects;
modelled as a finite set of writer identifiers. -/
abbrev Registry := Finset Nat

/-- `active_connections.add(writer)` (Python `set.add`). -/
def setAdd (r : Registry) (w : Nat) : Registry := insert w r

/-- `active_connections.discard(writer)` (Python `set.discard`). -/
def setDiscard (r : Registry) (w : Nat) : Registry := r.erase w

/-- Effect of one trace event on the registry. -/
def regStep (r : Registry) : Event → Registry
  | .regAdd w => setAdd r w
  | .regDiscard w => setDiscard r w
  | _ => r

/-- The registry after replaying a list of events. -/
def regAfter (r : Registry) : List Event → Registry
  | [] => r
  | e :: rest => regAfter (regStep r e) rest

/-- The registry after the first `k` events of a trace: the point-in-time
snapshot between event `k - 1` and event `k`. -/
def regAt (r : Registry) (evs : List Event) (k : Nat) : Registry :=
  regAfter r (evs.take k)

/-- The payloads of the write events of a trace, in order: the byte strings
handed to `writer.write`. -/
def writesIn (evs : List Event) : List (List Nat) :=
  evs.filterMap fun e =>
    match e with
    | .write bs => some bs
    | _ => none

/-- Whether the event is a suspension for the inter-byte delay. -/
def isSleep : Event → Bool
  | .sleep _ => true
  | _ => false

/-- The prefix of the trace before the first delay suspension: everything the
client can observe before one delay interval has begun. -/
def beforeFirstSleep (evs : List Event) : List Event :=
  evs.takeWhile fun e => ! isSleep e

/-- Whether the event touches the registry. -/
def touchesReg : Event → Bool
  | .regAdd _ => true
  | .regDiscard _ => true
  | _ => false

/-- Sequentiality check: scanning the trace with a flag recording whether a
write has happened since the last delay suspension, no write may occur while
one is already pending.  `seqOk evs false = true` says the trace never has two
writes without a delay between them: at most one byte in flight per interval. -/
def seqOk : List Event → Bool → Bool
  | [], _ => true
  | .write _ :: _, true => false
  | .write _ :: rest, false => seqOk rest true
  | .sleep _ :: rest, _ => seqOk rest false
  | _ :: rest, p => seqOk rest p

/-- Where the `_quiet_exception_handler` sends an error context: swallowed,
forwarded to the previously installed handler, or forwarded to the loop's
default handler. -/
inductive HookResult
  | swallowed
  | forwardedToOrig
  | forwardedToDefault
  deriving DecidableEq

/-- `_quiet_exception_handler` (asynctarpit.py lines 23-30): reads
`context.get("exception")`; if it is an instance of `_SUPPRESSED` the context
is swallowed, otherwise it is forwarded to `_orig_exception_handler` when one
was installed and to `loop.default_exception_handler` when not.  `orig` says
whether `_orig_exception_handler` is set; `exc` is the context's exception
entry, `none` when the context carries no exception. -/
def _quiet_exception_handler (orig : Bool) (exc : Option PyError) : HookResult :=
  match exc with
  | some e =>
      if _SUPPRESSED e then .swallowed
      else if orig then .forwardedToOrig else .forwardedToDefault
  | none => if orig then .forwardedToOrig else .forwardedToDefault

/-- Whether the event is a write to the socket. -/
def isWriteEv : Event → Bool
  | .write _ => true
  | _ => false

/-! ## Helper lemmas about traces -/

theorem writesIn_append (xs ys : List Event) :
    writesIn (xs ++ ys) = writesIn xs ++ writesIn ys := by
  simp [writesIn, List.filterMap_append]

theorem writesIn_eq_nil (l : List Event) (h : ∀ x ∈ l, isWriteEv x = false) :
    writesIn l = [] := by
  induction l with
  | nil => rfl
  | cons a l ih =>
      have ha := h a (by simp)
      have ht : ∀ x ∈ l, isWriteEv x = false := fun x hx => h x (by simp [hx])
      cases a <;> simp [isWriteEv] at ha ⊢ <;> exact ih ht

theorem dripLoop_mem (delay : Nat) (s : List IterResult) :
    ∀ x ∈ (dripLoop delay s).1,
      x = Event.drain ∨ isSleep x = true ∨ isWriteEv x = true := by
  induction s with
  | nil => intro x hx; simp [dripLoop] at hx
  | cons r s ih =>
      intro x hx
      cases r with
      | ok b =>
          simp [dripLoop] at hx
          rcases hx with h | h | h | h
          · exact Or.inr (Or.inr (by simp [h, isWriteEv]))
          · exact Or.inl h
          · exact Or.inr (Or.inl (by simp [h, isSleep]))
          · exact ih x h
      | failWrite e => simp [dripLoop] at hx
      | failDrain b e =>
          simp [dripLoop] at hx
          exact Or.inr (Or.inr (by simp [hx, isWriteEv]))
      | cancelledAtSleep b =>
          simp [dripLoop] at hx
          rcases hx with h | h
          · exact Or.inr (Or.inr (by simp [h, isWriteEv]))
          · exact Or.inl h

theorem dripLoop_no_touch (delay : Nat) (s : List IterResult) :
    ∀ x ∈ (dripLoop delay s).1, touchesReg x = false := by
  intro x hx
  rcases dripLoop_mem delay s x hx with h | h | h
  · simp [h, touchesReg]
  · cases x <;> simp [isSleep] at h <;> simp [touchesReg]
  · cases x <;> simp [isWriteEv] at h <;> simp [touchesReg]

theorem exceptEvents_mem (ip : String) (e : PyError) :
    ∀ x ∈ exceptEvents ip e,
      x = Event.logLost ip ∨ x = Event.logError ip e := by
  intro x hx
  unfold exceptEvents at hx
  split at hx
  · simp at hx; exact Or.inl hx
  · split at hx
    · simp at hx; exact Or.inr hx
    · simp at hx

theorem exceptEvents_no_write (ip : String) (e : PyError) :
    ∀ x ∈ exceptEvents ip e, isWriteEv x = false := by
  intro x hx
  rcases exceptEvents_mem ip e x hx with h | h <;> simp [h, isWriteEv]

theorem exceptEvents_no_touch (ip : String) (e : PyError) :
    ∀ x ∈ exceptEvents ip e, touchesReg x = false := by
  intro x hx
  rcases exceptEvents_mem ip e x hx with h | h <;> simp [h, touchesReg]

theorem finallyTail_mem (ip : String) (port : Nat) (isClosing : Bool)
    (wcErr : Option PyError) :
    ∀ x ∈ ((if isClosing then [] else [Event.close]) ++
        Event.waitClosed ::
          (if wcPropagates wcErr then [] else [Event.logClosed ip port])),
      x = Event.close ∨ x = Event.waitClosed ∨ x = Event.logClosed ip port := by
  intro x hx
  cases isClosing <;> cases h : wcPropagates wcErr <;> simp [h] at hx <;> tauto

theorem regAfter_append (r : Registry) (xs ys : List Event) :
    regAfter r (xs ++ ys) = regAfter (regAfter r xs) ys := by
  induction xs generalizing r with
  | nil => rfl
  | cons a xs ih => simp [regAfter, ih]

theorem regAfter_no_touch (r : Registry) (l : List Event)
    (h : ∀ x ∈ l, touchesReg x = false) : regAfter r l = r := by
  induction l generalizing r with
  | nil => rfl
  | cons a l ih =>
      have ha := h a (by simp)
      have hstep : regStep r a = r := by
        cases a <;> simp [touchesReg] at ha <;> simp [regStep]
      rw [regAfter, hstep]
      exact ih r (fun x hx => h x (by simp [hx]))

theorem dripLoop_writes_single (delay : Nat) (s : List IterResult) :
    ∀ w ∈ writesIn (dripLoop delay s).1, w.length = 1 := by
  induction s with
  | nil => intro w hw; simp [dripLoop, writesIn] at hw
  | cons r s ih =>
      intro w hw
      cases r with
      | ok b =>
          simp [dripLoop, writesIn] at hw
          rcases hw with h | h
          · simp [h]
          · exact ih w (by simpa [writesIn] using h)
      | failWrite e => simp [dripLoop, writesIn] at hw
      | failDrain b e => simp [dripLoop, writesIn] at hw; simp [hw]
      | cancelledAtSleep b => simp [dripLoop, writesIn] at hw; simp [hw]

theorem seqOk_no_write (l : List Event) (h : ∀ x ∈ l, isWriteEv x = false) :
    ∀ p, seqOk l p = true := by
  induction l with
  | nil => intro p; rfl
  | cons a l ih =>
      intro p
      have ha := h a (by simp)
      have ht : ∀ x ∈ l, isWriteEv x = false := fun x hx => h x (by simp [hx])
      cases a <;> simp [isWriteEv] at ha <;> simp [seqOk] <;> exact ih ht _

theorem seqOk_dripLoop (delay : Nat) (s : List IterResult) (tail : List Event)
    (h : ∀ x ∈ tail, isWriteEv x = false) :
    seqOk ((dripLoop delay s).1 ++ tail) false = true := by
  induction s with
  | nil => simpa [dripLoop] using seqOk_no_write tail h false
  | cons r s ih =>
      cases r with
      | ok b => simpa [dripLoop, seqOk] using ih
      | failWrite e => simpa [dripLoop] using seqOk_no_write tail h false
      | failDrain b e => simpa [dripLoop, seqOk] using seqOk_no_write tail h true
      | cancelledAtSleep b => simpa [dripLoop, seqOk] using seqOk_no_write tail h true

theorem finallyEvents_no_write (wid : Nat) (ip : String) (port : Nat)
    (isClosing : Bool) (wcErr : Option PyError) :
    ∀ x ∈ finallyEvents wid ip port isClosing wcErr, isWriteEv x = false := by
  intro x hx
  rcases List.mem_cons.mp hx with h | h
  · simp [h, isWriteEv]
  · rcases finallyTail_mem ip port isClosing wcErr x h with h | h | h <;>
      simp [h, isWriteEv]

theorem writesIn_beforeFirstSleep_nil (l : List Event)
    (h : ∀ x ∈ l, isWriteEv x = false) :
    writesIn (beforeFirstSleep l) = [] := by
  apply writesIn_eq_nil
  intro x hx
  exact h x ((List.takeWhile_sublist _).subset hx)

theorem beforeFirstSleep_cons_notSleep (e : Event) (l : List Event)
    (h : isSleep e = false) :
    beforeFirstSleep (e :: l) = e :: beforeFirstSleep l := by
  simp [beforeFirstSleep, List.takeWhile, h]

theorem beforeFirstSleep_cons_sleep (d : Nat) (l : List Event) :
    beforeFirstSleep (Event.sleep d :: l) = [] := by
  simp [beforeFirstSleep, List.takeWhile, isSleep]

theorem writesIn_cons_write (bs : List Nat) (l : List Event) :
    writesIn (Event.write bs :: l) = bs :: writesIn l := by
  simp [writesIn]

theorem writesIn_cons_other (e : Event) (l : List Event)
    (h : isWriteEv e = false) :
    writesIn (e :: l) = writesIn l := by
  cases e <;> simp [isWriteEv] at h ⊢ <;> simp [writesIn]

theorem dripLoop_ok_script (delay : Nat) (bs : List Nat) :
    dripLoop delay (bs.map IterResult.ok)
      = ((bs.map fun b => [Event.write [b], Event.drain, Event.sleep delay]).join,
          none) := by
  induction bs with
  | nil => rfl
  | cons b bs ih => simp [dripLoop, ih]

theorem dripLoop_isSome_iff (delay : Nat) (s : List IterResult) :
    (dripLoop delay s).2.isSome = true ↔ s.any (fun r => ! r.isOk) = true := by
  induction s with
  | nil => simp [dripLoop]
  | cons r s ih => cases r <;> simp [dripLoop, IterResult.isOk, ih]

theorem tarpit_handler_eq_none (delay wid : Nat) (pn : Option (String × Nat))
    (script : List IterResult) (isClosing : Bool) (wcErr : Option PyError)
    (h : (dripLoop delay script).2 = none) :
    tarpit_handler delay wid pn script isClosing wcErr
      = (Event.logTrapped (clientOf pn).1 (clientOf pn).2 :: Event.regAdd wid ::
          (dripLoop delay script).1, none) := by
  simp only [tarpit_handler, h]

theorem tarpit_handler_eq_some (delay wid : Nat) (pn : Option (String × Nat))
    (script : List IterResult) (isClosing : Bool) (wcErr : Option PyError)
    (e : PyError) (h : (dripLoop delay script).2 = some e) :
    tarpit_handler delay wid pn script isClosing wcErr
      = (Event.logTrapped (clientOf pn).1 (clientOf pn).2 :: Event.regAdd wid ::
          ((dripLoop delay script).1 ++ exceptEvents (clientOf pn).1 e ++
            finallyEvents wid (clientOf pn).1 (clientOf pn).2 isClosing wcErr),
        some (outcomeOf e wcErr)) := by
  simp only [tarpit_handler, h]

theorem regStep_no_touch (r : Registry) (a : Event) (h : touchesReg a = false) :
    regStep r a = r := by
  cases a <;> simp [touchesReg] at h <;> simp [regStep]

theorem finallyTail_no_touch (ip : String) (port : Nat) (isClosing : Bool)
    (wcErr : Option PyError) :
    ∀ x ∈ ((if isClosing then [] else [Event.close]) ++
        Event.waitClosed ::
          (if wcPropagates wcErr then [] else [Event.logClosed ip port])),
      touchesReg x = false := by
  intro x hx
  rcases finallyTail_mem ip port isClosing wcErr x hx with h | h | h <;>
    simp [h, touchesReg]

theorem dripLoop_count_zero (delay : Nat) (s : List IterResult) (a : Event)
    (h1 : a ≠ Event.drain) (h2 : isSleep a = false) (h3 : isWriteEv a = false) :
    (dripLoop delay s).1.count a = 0 := by
  apply List.count_eq_zero.mpr
  intro hmem
  rcases dripLoop_mem delay s a hmem with h | h | h
  · exact h1 h
  · rw [h2] at h; exact Bool.false_ne_true h
  · rw [h3] at h; exact Bool.false_ne_true h

theorem exceptEvents_count_nolog (ip : String) (e : PyError) (a : Event)
    (h : logSeverity a = none) : (exceptEvents ip e).count a = 0 := by
  apply List.count_eq_zero.mpr
  intro hmem
  rcases exceptEvents_mem ip e a hmem with h2 | h2 <;> rw [h2] at h <;>
    simp [logSeverity] at h

theorem finallyEvents_count_discard (wid : Nat) (ip : String) (port : Nat)
    (isClosing : Bool) (wcErr : Option PyError) :
    (finallyEvents wid ip port isClosing wcErr).count (Event.regDiscard wid)
      = 1 := by
  unfold finallyEvents
  cases isClosing <;> cases h : wcPropagates wcErr <;>
    simp [h, List.count_cons, List.count_append]

theorem finallyEvents_count_waitClosed (wid : Nat) (ip : String) (port : Nat)
    (isClosing : Bool) (wcErr : Option PyError) :
    (finallyEvents wid ip port isClosing wcErr).count Event.waitClosed = 1 := by
  unfold finallyEvents
  cases isClosing <;> cases h : wcPropagates wcErr <;>
    simp [h, List.count_cons, List.count_append]

theorem finallyEvents_count_close (wid : Nat) (ip : String) (port : Nat)
    (isClosing : Bool) (wcErr : Option PyError) :
    (finallyEvents wid ip port isClosing wcErr).count Event.close
      = if isClosing then 0 else 1 := by
  unfold finallyEvents
  cases isClosing <;> cases h : wcPropagates wcErr <;>
    simp [h, List.count_cons, List.count_append]

theorem regAt_window (reg0 : Registry) (wid : Nat) (a : Event)
    (mid post : List Event) (ha : touchesReg a = false)
    (hmid : ∀ x ∈ mid, touchesReg x = false)
    (hpost : ∀ x ∈ post, touchesReg x = false)
    (h0 : wid ∉ reg0) (k : Nat) :
    (wid ∈ regAt reg0
        (a :: Event.regAdd wid :: (mid ++ Event.regDiscard wid :: post)) k
      ↔ (2 ≤ k ∧ k ≤ 2 + mid.length)) := by
  match k with
  | 0 => simpa [regAt, regAfter] using h0
  | 1 =>
      simp only [regAt, List.take_succ_cons, List.take_zero, regAfter,
        regStep_no_touch reg0 a ha]
      simpa using h0
  | (n + 2) =>
      simp only [regAt, List.take_succ_cons, regAfter,
        regStep_no_touch reg0 a ha]
      rw [show regStep reg0 (Event.regAdd wid) = setAdd reg0 wid from rfl]
      rw [List.take_append_eq_append_take]
      rcases le_or_lt n mid.length with hn | hn
      · rw [Nat.sub_eq_zero_of_le hn, List.take_zero, List.append_nil]
        rw [regAfter_no_touch _ _
          (fun x hx => hmid x ((List.take_sublist _ _).subset hx))]
        simp [setAdd, Finset.mem_insert]
        omega
      · rw [List.take_of_length_le (Nat.le_of_lt hn)]
        have hm : n - mid.length = (n - mid.length - 1) + 1 := by omega
        rw [hm, List.take_succ_cons, regAfter_append, regAfter_no_touch _ _ hmid,
          regAfter]
        rw [show regStep (setAdd reg0 wid) (Event.regDiscard wid)
          = setDiscard (setAdd reg0 wid) wid from rfl]
        rw [regAfter_no_touch _ _
          (fun x hx => hpost x ((List.take_sublist _ _).subset hx))]
        simp [setDiscard, Finset.not_mem_erase]
        omega

theorem dripLoop_not_mem (delay : Nat) (s : List IterResult) (a : Event)
    (h1 : a ≠ Event.drain) (h2 : isSleep a = false) (h3 : isWriteEv a = false) :
    a ∉ (dripLoop delay s).1 := by
  intro hx
  rcases dripLoop_mem delay s a hx with h | h | h
  · exact h1 h
  · rw [h2] at h; exact Bool.false_ne_true h
  · rw [h3] at h; exact Bool.false_ne_true h

theorem dripLoop_not_errorLog (delay : Nat) (s : List IterResult) :
    ∀ x ∈ (dripLoop delay s).1, logSeverity x ≠ some Severity.error := by
  intro x hx
  rcases dripLoop_mem delay s x hx with h | h | h
  · rw [h]; simp [logSeverity]
  · cases x <;> simp [isSleep] at h <;> simp [logSeverity]
  · cases x <;> simp [isWriteEv] at h <;> simp [logSeverity]

theorem finallyEvents_not_errorLog (wid : Nat) (ip : String) (port : Nat)
    (isClosing : Bool) (wcErr : Option PyError) :
    ∀ x ∈ finallyEvents wid ip port isClosing wcErr,
      logSeverity x ≠ some Severity.error := by
  intro x hx
  rcases List.mem_cons.mp hx with h | h
  · rw [h]; simp [logSeverity]
  · rcases finallyTail_mem ip port isClosing wcErr x h with h | h | h <;>
      rw [h] <;> simp [logSeverity]

theorem finallyEvents_no_logLost (wid : Nat) (ip : String) (port : Nat)
    (isClosing : Bool) (wcErr : Option PyError) (ip2 : String) :
    Event.logLost ip2 ∉ finallyEvents wid ip port isClosing wcErr := by
  intro hx
  rcases List.mem_cons.mp hx with h | h
  · exact Event.noConfusion h
  · rcases finallyTail_mem ip port isClosing wcErr _ h with h | h | h <;>
      exact Event.noConfusion h

theorem finallyEvents_no_logError (wid : Nat) (ip : String) (port : Nat)
    (isClosing : Bool) (wcErr : Option PyError) (ip2 : String) (e2 : PyError) :
    Event.logError ip2 e2 ∉ finallyEvents wid ip port isClosing wcErr := by
  intro hx
  rcases List.mem_cons.mp hx with h | h
  · exact Event.noConfusion h
  · rcases finallyTail_mem ip port isClosing wcErr _ h with h | h | h <;>
      exact Event.noConfusion h

/-! ## Claim theorems -/

/-- C1 counterexample: the claim says no bytes are sent before one full delay
interval has elapsed after the connection is accepted.  In the code the loop
body is write-then-drain-then-sleep, so on a connection from 203.0.113.9:50123
whose first iteration succeeds, the handler has already written the one-byte
string [42] strictly before the first delay suspension of the trace. -/
theorem C1_counterexample :
    writesIn (beforeFirstSleep
      (tarpit_handler 10 1 (some ("203.0.113.9", 50123))
        [IterResult.ok 42, IterResult.failWrite PyError.connectionReset]
        false none).1) = [[42]] := by
  rfl

/-- C1 amended: the server sends no banner, but the first drip byte is written
immediately upon acceptance, before the first delay suspension, not after it:
in every handler trace at most one write occurs before the first delay
suspension, every byte string ever written to the socket is a single drip
byte, and the configured delay defaults to 10 seconds. -/
theorem C1_amended (delay wid : Nat) (pn : Option (String × Nat))
    (script : List IterResult) (isClosing : Bool) (wcErr : Option PyError) :
    (writesIn (beforeFirstSleep
        (tarpit_handler delay wid pn script isClosing wcErr).1)).length ≤ 1
    ∧ (∀ w ∈ writesIn (tarpit_handler delay wid pn script isClosing wcErr).1,
        w.length = 1)
    ∧ DELAY = 10 := by
  have hnw : ∀ e2 : PyError,
      ∀ x ∈ exceptEvents (clientOf pn).1 e2 ++
          finallyEvents wid (clientOf pn).1 (clientOf pn).2 isClosing wcErr,
        isWriteEv x = false := by
    intro e2 x hx
    rcases List.mem_append.mp hx with h | h
    · exact exceptEvents_no_write _ _ x h
    · exact finallyEvents_no_write _ _ _ _ _ x h
  refine ⟨?_, ?_, rfl⟩
  · cases script with
    | nil =>
        rw [tarpit_handler_eq_none delay wid pn [] isClosing wcErr rfl]
        simp only [dripLoop, beforeFirstSleep_cons_notSleep,
          beforeFirstSleep_cons_sleep, writesIn_cons_other, writesIn_cons_write,
          isSleep, isWriteEv]
        simp [beforeFirstSleep, writesIn]
    | cons r rest =>
        cases r with
        | ok b =>
            cases h : (dripLoop delay rest).2 with
            | none =>
                rw [tarpit_handler_eq_none delay wid pn
                  (IterResult.ok b :: rest) isClosing wcErr (by simp [dripLoop, h])]
                simp only [dripLoop]
                simp only [beforeFirstSleep_cons_notSleep,
                  beforeFirstSleep_cons_sleep, writesIn_cons_other,
                  writesIn_cons_write, isSleep, isWriteEv]
                simp [writesIn]
            | some e =>
                rw [tarpit_handler_eq_some delay wid pn
                  (IterResult.ok b :: rest) isClosing wcErr e (by simp [dripLoop, h])]
                simp only [dripLoop, List.cons_append, List.append_assoc]
                simp only [beforeFirstSleep_cons_notSleep,
                  beforeFirstSleep_cons_sleep, writesIn_cons_other,
                  writesIn_cons_write, isSleep, isWriteEv]
                simp [writesIn]
        | failWrite e =>
            rw [tarpit_handler_eq_some delay wid pn
              (IterResult.failWrite e :: rest) isClosing wcErr e (by simp [dripLoop])]
            simp only [dripLoop, List.nil_append]
            simp only [beforeFirstSleep_cons_notSleep, writesIn_cons_other,
              isSleep, isWriteEv]
            rw [writesIn_beforeFirstSleep_nil _ (hnw e)]
            simp
        | failDrain b e =>
            rw [tarpit_handler_eq_some delay wid pn
              (IterResult.failDrain b e :: rest) isClosing wcErr e (by simp [dripLoop])]
            simp only [dripLoop, List.cons_append, List.nil_append, List.append_assoc]
            simp only [beforeFirstSleep_cons_notSleep, writesIn_cons_other,
              writesIn_cons_write, isSleep, isWriteEv]
            rw [writesIn_beforeFirstSleep_nil _ (hnw e)]
            simp
        | cancelledAtSleep b =>
            rw [tarpit_handler_eq_some delay wid pn
              (IterResult.cancelledAtSleep b :: rest) isClosing wcErr
              PyError.cancelled (by simp [dripLoop])]
            simp only [dripLoop, List.cons_append, List.nil_append, List.append_assoc]
            simp only [beforeFirstSleep_cons_notSleep, writesIn_cons_other,
              writesIn_cons_write, isSleep, isWriteEv]
            rw [writesIn_beforeFirstSleep_nil _ (hnw PyError.cancelled)]
            simp
  · intro w hw
    cases h : (dripLoop delay script).2 with
    | none =>
        rw [tarpit_handler_eq_none delay wid pn script isClosing wcErr h] at hw
        simp only [writesIn_cons_other, writesIn_cons_write, isWriteEv] at hw
        exact dripLoop_writes_single delay script w hw
    | some e =>
        rw [tarpit_handler_eq_some delay wid pn script isClosing wcErr e h] at hw
        simp only [writesIn_cons_other, writesIn_cons_write, isWriteEv,
          writesIn_append] at hw
        rw [writesIn_eq_nil _ (exceptEvents_no_write _ _),
          writesIn_eq_nil _ (finallyEvents_no_write _ _ _ _ _)] at hw
        simp at hw
        exact dripLoop_writes_single delay script w hw

/-- C5 counterexample: the claim says the drip loop ends only when the write
or the flush fails.  On a script whose first iteration completes the write and
the drain but is cancelled while suspended in `asyncio.sleep`, the loop ends
(with `CancelledError`) although neither the write nor the flush failed. -/
theorem C5_counterexample :
    dripLoop 10 [IterResult.cancelledAtSleep 7]
      = ([Event.write [7], Event.drain], some PyError.cancelled) := rfl

/-- C5 amended: every successful drip-loop iteration writes exactly one byte,
fully flushes it, then suspends for the fixed delay; the per-connection byte
stream is strictly sequential (never two writes without a delay suspension
between them) and every write is a single byte; there is no upper bound on
iterations (a script of any number of successful iterations leaves the loop
still running); and the loop ends exactly when a step raises: a write or
flush failure, or cancellation surfacing during the sleep. -/
theorem C5_amended (delay : Nat) (script : List IterResult) (bs : List Nat)
    (wid : Nat) (pn : Option (String × Nat)) (isClosing : Bool)
    (wcErr : Option PyError) :
    dripLoop delay (bs.map IterResult.ok)
      = ((bs.map fun b => [Event.write [b], Event.drain, Event.sleep delay]).join,
          none)
    ∧ (∀ w ∈ writesIn (dripLoop delay script).1, w.length = 1)
    ∧ seqOk (tarpit_handler delay wid pn script isClosing wcErr).1 false = true
    ∧ ((dripLoop delay script).2.isSome = true
        ↔ script.any (fun r => ! r.isOk) = true) := by
  refine ⟨dripLoop_ok_script delay bs, dripLoop_writes_single delay script, ?_,
    dripLoop_isSome_iff delay script⟩
  cases h : (dripLoop delay script).2 with
  | none =>
      rw [tarpit_handler_eq_none delay wid pn script isClosing wcErr h]
      simp only [seqOk]
      have := seqOk_dripLoop delay script [] (by intro x hx; simp at hx)
      simpa using this
  | some e =>
      rw [tarpit_handler_eq_some delay wid pn script isClosing wcErr e h]
      simp only [seqOk, List.append_assoc]
      refine seqOk_dripLoop delay script _ ?_
      intro x hx
      rcases List.mem_append.mp hx with h2 | h2
      · exact exceptEvents_no_write _ _ x h2
      · exact finallyEvents_no_write _ _ _ _ _ x h2

/-- C2: the failure classification used by the handler labels an error as an
expected disconnect if and only if it is a connection reset by peer, a
connection abort, or a broken pipe; every other error is classified as
genuine, and the handler's expected-disconnect branch (the "Connection lost"
log) is selected exactly on that predicate. -/
theorem C2_classification (e : PyError) (ip : String) :
    (_SUPPRESSED e = true ↔
      (e = .connectionReset ∨ e = .connectionAborted ∨ e = .brokenPipe))
    ∧ (exceptEvents ip e = [Event.logLost ip] ↔ _SUPPRESSED e = true) := by
  cases e <;> simp [_SUPPRESSED, exceptEvents, isException]

/-- C3: on every terminating handler execution, whatever error ended the drip
loop, the finally-block cleanup runs exactly once: the trace contains exactly
one registry discard for the handler's connection, exactly one await of
socket closure, and exactly one close when the socket was not already closing
(none when it was); and whatever registry the handler started from, the
handler's connection is not in the registry after the trace has been
replayed, i.e. after the handler terminates. -/
theorem C3_cleanup_once (delay wid : Nat) (pn : Option (String × Nat))
    (script : List IterResult) (isClosing : Bool) (wcErr : Option PyError)
    (reg0 : Registry) (e : PyError)
    (h : (dripLoop delay script).2 = some e) :
    (tarpit_handler delay wid pn script isClosing wcErr).1.count
        (Event.regDiscard wid) = 1
    ∧ (tarpit_handler delay wid pn script isClosing wcErr).1.count
        Event.waitClosed = 1
    ∧ (tarpit_handler delay wid pn script isClosing wcErr).1.count
        Event.close = (if isClosing then 0 else 1)
    ∧ wid ∉ regAfter reg0
        (tarpit_handler delay wid pn script isClosing wcErr).1 := by
  rw [tarpit_handler_eq_some delay wid pn script isClosing wcErr e h]
  refine ⟨?_, ?_, ?_, ?_⟩
  · simp only [List.count_cons, List.count_append,
      dripLoop_count_zero delay script (Event.regDiscard wid) (by simp)
        (by simp [isSleep]) (by simp [isWriteEv]),
      exceptEvents_count_nolog (clientOf pn).1 e (Event.regDiscard wid)
        (by simp [logSeverity]),
      finallyEvents_count_discard]
    simp
  · simp only [List.count_cons, List.count_append,
      dripLoop_count_zero delay script Event.waitClosed (by simp)
        (by simp [isSleep]) (by simp [isWriteEv]),
      exceptEvents_count_nolog (clientOf pn).1 e Event.waitClosed
        (by simp [logSeverity]),
      finallyEvents_count_waitClosed]
    simp
  · simp only [List.count_cons, List.count_append,
      dripLoop_count_zero delay script Event.close (by simp)
        (by simp [isSleep]) (by simp [isWriteEv]),
      exceptEvents_count_nolog (clientOf pn).1 e Event.close
        (by simp [logSeverity]),
      finallyEvents_count_close]
    cases isClosing <;> simp
  · simp only [regAfter, regStep]
    rw [regAfter_append, regAfter_append,
      regAfter_no_touch _ _ (dripLoop_no_touch delay script),
      regAfter_no_touch _ _ (exceptEvents_no_touch _ _)]
    unfold finallyEvents
    simp only [regAfter, regStep]
    rw [regAfter_no_touch _ _ (finallyTail_no_touch _ _ _ _)]
    simp [setDiscard, setAdd, Finset.not_mem_erase]

/-- C3 witness: the cleanup properties evaluated on a concrete terminating
run: connection 4 from 198.51.100.23:41000, one successful iteration, then a
broken pipe at the write, socket not yet closing, clean `wait_closed`,
starting registry containing connection 9. -/
theorem C3_cleanup_once_witness :
    (tarpit_handler 10 4 (some ("198.51.100.23", 41000))
        [IterResult.ok 5, IterResult.failWrite PyError.brokenPipe]
        false none).1.count (Event.regDiscard 4) = 1
    ∧ (tarpit_handler 10 4 (some ("198.51.100.23", 41000))
        [IterResult.ok 5, IterResult.failWrite PyError.brokenPipe]
        false none).1.count Event.waitClosed = 1
    ∧ (tarpit_handler 10 4 (some ("198.51.100.23", 41000))
        [IterResult.ok 5, IterResult.failWrite PyError.brokenPipe]
        false none).1.count Event.close = (if false then 0 else 1)
    ∧ (4 : Nat) ∉ regAfter {9}
        (tarpit_handler 10 4 (some ("198.51.100.23", 41000))
          [IterResult.ok 5, IterResult.failWrite PyError.brokenPipe]
          false none).1 :=
  C3_cleanup_once 10 4 (some ("198.51.100.23", 41000))
    [IterResult.ok 5, IterResult.failWrite PyError.brokenPipe]
    false none {9} PyError.brokenPipe rfl

/-- C4 counterexample: the claim says a connection is a member of the registry
if and only if its handler is between "accepted" and "fully closed", so that
membership ends only when the connection is fully closed.  On the concrete
run below (connection 1 from 203.0.113.9:50123, one successful iteration,
then a connection reset), event 7 of the trace is the socket close and event
8 the completion of `wait_closed`, yet already after 8 events — when the
close has been issued but closure has not yet completed, so the handler is
still between "accepted" and "fully closed" — connection 1 is no longer a
member: the code discards the connection at the start of the finally block,
before closing the socket. -/
theorem C4_counterexample :
    ((tarpit_handler 10 1 (some ("203.0.113.9", 50123))
        [IterResult.ok 42, IterResult.failWrite PyError.connectionReset]
        false none).1.get? 7 = some Event.close
      ∧ (tarpit_handler 10 1 (some ("203.0.113.9", 50123))
          [IterResult.ok 42, IterResult.failWrite PyError.connectionReset]
          false none).1.get? 8 = some Event.waitClosed)
    ∧ (1 : Nat) ∉ regAt (∅ : Registry)
        (tarpit_handler 10 1 (some ("203.0.113.9", 50123))
          [IterResult.ok 42, IterResult.failWrite PyError.connectionReset]
          false none).1 8 := by
  decide

/-- C4 amended: a connection is a member of the registry exactly while its
handler is between registration (the add on handler entry, directly after the
connection is accepted) and the start of cleanup (the discard at the top of
the finally block): on every terminating run the trace splits as the trapped
log, the registry add, a middle segment that never touches the registry, the
registry discard, and a registry-free tail that still contains the await of
socket closure; and for every point k of the trace, the connection is a
member of the registry after the first k events iff the add has executed and
the discard has not, so membership ends when cleanup begins, before the
socket is closed and its closure awaited. -/
theorem C4_amended (delay wid : Nat) (pn : Option (String × Nat))
    (script : List IterResult) (isClosing : Bool) (wcErr : Option PyError)
    (reg0 : Registry) (e : PyError)
    (h : (dripLoop delay script).2 = some e) (h0 : wid ∉ reg0) :
    ∃ mid post,
      (tarpit_handler delay wid pn script isClosing wcErr).1
        = Event.logTrapped (clientOf pn).1 (clientOf pn).2 :: Event.regAdd wid ::
            (mid ++ Event.regDiscard wid :: post)
      ∧ (∀ x ∈ mid, touchesReg x = false)
      ∧ (∀ x ∈ post, touchesReg x = false)
      ∧ Event.waitClosed ∈ post
      ∧ ∀ k, (wid ∈ regAt reg0
            (tarpit_handler delay wid pn script isClosing wcErr).1 k
          ↔ (2 ≤ k ∧ k ≤ 2 + mid.length)) := by
  refine ⟨(dripLoop delay script).1 ++ exceptEvents (clientOf pn).1 e,
    (if isClosing then [] else [Event.close]) ++
      Event.waitClosed ::
        (if wcPropagates wcErr then [] else [Event.logClosed (clientOf pn).1
          (clientOf pn).2]),
    ?_, ?_, ?_, ?_, ?_⟩
  · rw [tarpit_handler_eq_some delay wid pn script isClosing wcErr e h]
    simp [finallyEvents]
  · intro x hx
    rcases List.mem_append.mp hx with h2 | h2
    · exact dripLoop_no_touch delay script x h2
    · exact exceptEvents_no_touch _ _ x h2
  · exact finallyTail_no_touch _ _ _ _
  · cases isClosing <;> simp
  · intro k
    rw [tarpit_handler_eq_some delay wid pn script isClosing wcErr e h]
    have hshape :
        (dripLoop delay script).1 ++ exceptEvents (clientOf pn).1 e ++
            finallyEvents wid (clientOf pn).1 (clientOf pn).2 isClosing wcErr
          = ((dripLoop delay script).1 ++ exceptEvents (clientOf pn).1 e) ++
              Event.regDiscard wid ::
                ((if isClosing then [] else [Event.close]) ++
                  Event.waitClosed ::
                    (if wcPropagates wcErr then []
                      else [Event.logClosed (clientOf pn).1 (clientOf pn).2])) := by
      simp [finallyEvents]
    rw [hshape]
    refine regAt_window reg0 wid
      (Event.logTrapped (clientOf pn).1 (clientOf pn).2)
      ((dripLoop delay script).1 ++ exceptEvents (clientOf pn).1 e)
      ((if isClosing then [] else [Event.close]) ++
        Event.waitClosed :: (if wcPropagates wcErr then []
          else [Event.logClosed (clientOf pn).1 (clientOf pn).2]))
      rfl ?_ (finallyTail_no_touch _ _ _ _) h0 k
    intro x hx
    rcases List.mem_append.mp hx with h2 | h2
    · exact dripLoop_no_touch delay script x h2
    · exact exceptEvents_no_touch _ _ x h2

/-- C4 witness for the amended claim: the registry window evaluated on a
concrete terminating run: connection 6 from 192.0.2.8:51515, no successful
iteration, a connection abort at the first write, socket already closing,
clean `wait_closed`, starting from the empty registry. -/
theorem C4_amended_witness :
    ∃ mid post,
      (tarpit_handler 10 6 (some ("192.0.2.8", 51515))
          [IterResult.failWrite PyError.connectionAborted] true none).1
        = Event.logTrapped "192.0.2.8" 51515 :: Event.regAdd 6 ::
            (mid ++ Event.regDiscard 6 :: post)
      ∧ (∀ x ∈ mid, touchesReg x = false)
      ∧ (∀ x ∈ post, touchesReg x = false)
      ∧ Event.waitClosed ∈ post
      ∧ ∀ k, ((6 : Nat) ∈ regAt ∅
            (tarpit_handler 10 6 (some ("192.0.2.8", 51515))
              [IterResult.failWrite PyError.connectionAborted] true none).1 k
          ↔ (2 ≤ k ∧ k ≤ 2 + mid.length)) :=
  C4_amended 10 6 (some ("192.0.2.8", 51515))
    [IterResult.failWrite PyError.connectionAborted] true none ∅
    PyError.connectionAborted rfl (by simp)

/-- C7: the process-wide exception-reporting hook applies the same
expected-disconnect predicate `_SUPPRESSED` as the per-connection path: a
context whose exception matches the predicate is swallowed, and every other
context is forwarded to the previously installed handler when one exists and
to the default handler otherwise, so non-noise contexts are never dropped. -/
theorem C7_quiet_hook (orig : Bool) (exc : Option PyError) :
    (_quiet_exception_handler orig exc = .swallowed ↔
      ∃ e, exc = some e ∧ _SUPPRESSED e = true)
    ∧ (_quiet_exception_handler orig exc = .forwardedToOrig ↔
      orig = true ∧ ¬ ∃ e, exc = some e ∧ _SUPPRESSED e = true)
    ∧ (_quiet_exception_handler orig exc = .forwardedToDefault ↔
      orig = false ∧ ¬ ∃ e, exc = some e ∧ _SUPPRESSED e = true) := by
  cases exc with
  | none => cases orig <;> simp [_quiet_exception_handler]
  | some e => cases orig <;> cases e <;> simp [_quiet_exception_handler, _SUPPRESSED]

/-- C8: on the registry, `set.add` is idempotent when the connection is
already present, `set.discard` is a no-op when the connection is absent, and a
double discard leaves the same state as a single one, so double-add and
double-cleanup are safe. -/
theorem C8_registry_algebra (r : Registry) (w : Nat) :
    setAdd (setAdd r w) w = setAdd r w
    ∧ (w ∉ r → setDiscard r w = r)
    ∧ setDiscard (setDiscard r w) w = setDiscard r w := by
  refine ⟨?_, ?_, ?_⟩
  · simp [setAdd]
  · intro h
    simp [setDiscard, Finset.erase_eq_of_not_mem h]
  · simp [setDiscard]

/-- C8 witness: double add and double discard evaluated on the concrete
registry containing only connection 2, with connection 5. -/
theorem C8_registry_algebra_witness :
    setAdd (setAdd {2} 5) 5 = setAdd {2} 5
    ∧ ((5 : Nat) ∉ ({2} : Registry) → setDiscard {2} 5 = {2})
    ∧ setDiscard (setDiscard {2} 5) 5 = setDiscard {2} 5 :=
  C8_registry_algebra {2} 5

/-- C6: when the drip loop fails with an ordinary error (a Python
`Exception`), and closure completes without an uncaught error of its own, the
handler logs "Connection lost" at informational severity with no failure
detail (the trace then contains no error-severity event at all) if the error
is expected disconnect noise, and otherwise logs at error severity including
the failure detail (with no "Connection lost" line); in both cases the
handler returns normally, so the failure propagates no further than the one
connection. -/
theorem C6_failure_logging (delay wid : Nat) (pn : Option (String × Nat))
    (script : List IterResult) (isClosing : Bool) (wcErr : Option PyError)
    (e : PyError) (he : (dripLoop delay script).2 = some e)
    (hex : isException e = true) (hwc : wcPropagates wcErr = false) :
    (tarpit_handler delay wid pn script isClosing wcErr).2
        = some HandlerOutcome.normal
    ∧ (_SUPPRESSED e = true →
        Event.logLost (clientOf pn).1
            ∈ (tarpit_handler delay wid pn script isClosing wcErr).1
          ∧ ∀ x ∈ (tarpit_handler delay wid pn script isClosing wcErr).1,
              logSeverity x ≠ some Severity.error)
    ∧ (_SUPPRESSED e = false →
        Event.logError (clientOf pn).1 e
            ∈ (tarpit_handler delay wid pn script isClosing wcErr).1
          ∧ ∀ ip2, Event.logLost ip2
              ∉ (tarpit_handler delay wid pn script isClosing wcErr).1) := by
  have hpend : pendingErr e = none := by
    simp [pendingErr, hex]
  have houtcome : outcomeOf e wcErr = HandlerOutcome.normal := by
    cases wcErr with
    | none => simp [outcomeOf, hpend]
    | some e2 =>
        have hcaught : waitClosedCaught e2 = true := by
          simpa [wcPropagates] using hwc
        simp [outcomeOf, hcaught, hpend]
  refine ⟨?_, ?_, ?_⟩
  · rw [tarpit_handler_eq_some delay wid pn script isClosing wcErr e he, houtcome]
  · intro hsup
    have hexev : exceptEvents (clientOf pn).1 e
        = [Event.logLost (clientOf pn).1] := by
      simp [exceptEvents, hsup]
    rw [tarpit_handler_eq_some delay wid pn script isClosing wcErr e he]
    constructor
    · rw [hexev]; simp
    · intro x hx
      simp only [List.mem_cons, List.mem_append] at hx
      rcases hx with h1 | h1 | (h1 | h1) | h1
      · rw [h1]; simp [logSeverity]
      · rw [h1]; simp [logSeverity]
      · exact dripLoop_not_errorLog delay script x h1
      · rw [hexev] at h1
        simp at h1
        rw [h1]; simp [logSeverity]
      · exact finallyEvents_not_errorLog _ _ _ _ _ x h1
  · intro hsup
    have hexev : exceptEvents (clientOf pn).1 e
        = [Event.logError (clientOf pn).1 e] := by
      simp [exceptEvents, hsup, hex]
    rw [tarpit_handler_eq_some delay wid pn script isClosing wcErr e he]
    constructor
    · rw [hexev]; simp
    · intro ip2 hmem
      simp only [List.mem_cons, List.mem_append] at hmem
      rcases hmem with h1 | h1 | (h1 | h1) | h1
      · exact Event.noConfusion h1
      · exact Event.noConfusion h1
      · exact dripLoop_not_mem delay script (Event.logLost ip2) (by simp)
          (by simp [isSleep]) (by simp [isWriteEv]) h1
      · rw [hexev] at h1; simp at h1
      · exact finallyEvents_no_logLost _ _ _ _ _ ip2 h1

/-- C6 witness: the logging and termination behaviour evaluated on a concrete
run: connection 2 from 198.51.100.40:42042 whose first write raises a
connection reset (expected disconnect noise), socket not yet closing, clean
`wait_closed`. -/
theorem C6_failure_logging_witness :
    (tarpit_handler 10 2 (some ("198.51.100.40", 42042))
        [IterResult.failWrite PyError.connectionReset] false none).2
        = some HandlerOutcome.normal
    ∧ (_SUPPRESSED PyError.connectionReset = true →
        Event.logLost (clientOf (some ("198.51.100.40", 42042))).1
            ∈ (tarpit_handler 10 2 (some ("198.51.100.40", 42042))
                [IterResult.failWrite PyError.connectionReset] false none).1
          ∧ ∀ x ∈ (tarpit_handler 10 2 (some ("198.51.100.40", 42042))
                [IterResult.failWrite PyError.connectionReset] false none).1,
              logSeverity x ≠ some Severity.error)
    ∧ (_SUPPRESSED PyError.connectionReset = false →
        Event.logError (clientOf (some ("198.51.100.40", 42042))).1
            PyError.connectionReset
            ∈ (tarpit_handler 10 2 (some ("198.51.100.40", 42042))
                [IterResult.failWrite PyError.connectionReset] false none).1
          ∧ ∀ ip2, Event.logLost ip2
              ∉ (tarpit_handler 10 2 (some ("198.51.100.40", 42042))
                  [IterResult.failWrite PyError.connectionReset] false none).1) :=
  C6_failure_logging 10 2 (some ("198.51.100.40", 42042))
    [IterResult.failWrite PyError.connectionReset] false none
    PyError.connectionReset rfl rfl rfl

/-- C9: when the transport reports no peer address, the handler substitutes
the placeholder ("unknown", 0) and proceeds through its full normal lifecycle
exactly as it would with that address reported: the trace is identical, it
opens with the trapped log for "unknown":0, it registers and deregisters the
connection, and on a terminating run the handler reaches an outcome instead
of failing on the missing address. -/
theorem C9_unknown_peer (delay wid : Nat) (script : List IterResult)
    (isClosing : Bool) (wcErr : Option PyError) (e : PyError)
    (h : (dripLoop delay script).2 = some e) :
    clientOf none = ("unknown", 0)
    ∧ tarpit_handler delay wid none script isClosing wcErr
        = tarpit_handler delay wid (some ("unknown", 0)) script isClosing wcErr
    ∧ (tarpit_handler delay wid none script isClosing wcErr).1.head?
        = some (Event.logTrapped "unknown" 0)
    ∧ Event.regAdd wid ∈ (tarpit_handler delay wid none script isClosing wcErr).1
    ∧ Event.regDiscard wid
        ∈ (tarpit_handler delay wid none script isClosing wcErr).1
    ∧ (tarpit_handler delay wid none script isClosing wcErr).2.isSome = true := by
  refine ⟨rfl, rfl, ?_, ?_, ?_, ?_⟩
  all_goals rw [tarpit_handler_eq_some delay wid none script isClosing wcErr e h]
  · rfl
  · simp
  · simp [finallyEvents]
  · simp

/-- C9 witness: the placeholder-address lifecycle evaluated on a concrete
run: connection 3, missing peer address, one successful iteration and then a
connection abort at the drain, socket not yet closing, clean `wait_closed`. -/
theorem C9_unknown_peer_witness :
    clientOf none = ("unknown", 0)
    ∧ tarpit_handler 10 3 none
        [IterResult.ok 9, IterResult.failDrain 8 PyError.connectionAborted]
        false none
      = tarpit_handler 10 3 (some ("unknown", 0))
          [IterResult.ok 9, IterResult.failDrain 8 PyError.connectionAborted]
          false none
    ∧ (tarpit_handler 10 3 none
        [IterResult.ok 9, IterResult.failDrain 8 PyError.connectionAborted]
        false none).1.head? = some (Event.logTrapped "unknown" 0)
    ∧ Event.regAdd 3 ∈ (tarpit_handler 10 3 none
        [IterResult.ok 9, IterResult.failDrain 8 PyError.connectionAborted]
        false none).1
    ∧ Event.regDiscard 3 ∈ (tarpit_handler 10 3 none
        [IterResult.ok 9, IterResult.failDrain 8 PyError.connectionAborted]
        false none).1
    ∧ (tarpit_handler 10 3 none
        [IterResult.ok 9, IterResult.failDrain 8 PyError.connectionAborted]
        false none).2.isSome = true :=
  C9_unknown_peer 10 3
    [IterResult.ok 9, IterResult.failDrain 8 PyError.connectionAborted]
    false none PyError.connectionAborted rfl

/-- C10: when the drip loop ends with a failure that is not an ordinary
exception — cancellation — neither except branch catches it: nothing is
logged as lost or as an error, yet the cleanup still runs before the failure
propagates: the connection is discarded from the registry, the socket is
closed exactly when it was not already closing, closure is awaited, the
"Connection closed" line is logged, and the handler's outcome is the
cancellation propagating to the caller. -/
theorem C10_cancellation (delay wid : Nat) (pn : Option (String × Nat))
    (script : List IterResult) (isClosing : Bool) (wcErr : Option PyError)
    (he : (dripLoop delay script).2 = some PyError.cancelled)
    (hwc : wcPropagates wcErr = false) :
    (tarpit_handler delay wid pn script isClosing wcErr).2
        = some (HandlerOutcome.propagated PyError.cancelled)
    ∧ (∀ ip2, Event.logLost ip2
        ∉ (tarpit_handler delay wid pn script isClosing wcErr).1)
    ∧ (∀ ip2 e2, Event.logError ip2 e2
        ∉ (tarpit_handler delay wid pn script isClosing wcErr).1)
    ∧ Event.regDiscard wid
        ∈ (tarpit_handler delay wid pn script isClosing wcErr).1
    ∧ (Event.close ∈ (tarpit_handler delay wid pn script isClosing wcErr).1
        ↔ isClosing = false)
    ∧ Event.waitClosed ∈ (tarpit_handler delay wid pn script isClosing wcErr).1
    ∧ Event.logClosed (clientOf pn).1 (clientOf pn).2
        ∈ (tarpit_handler delay wid pn script isClosing wcErr).1 := by
  have hexev : exceptEvents (clientOf pn).1 PyError.cancelled = [] := by
    simp [exceptEvents, _SUPPRESSED, isException]
  have houtcome : outcomeOf PyError.cancelled wcErr
      = HandlerOutcome.propagated PyError.cancelled := by
    cases wcErr with
    | none => simp [outcomeOf, pendingErr, _SUPPRESSED, isException]
    | some e2 =>
        have hcaught : waitClosedCaught e2 = true := by
          simpa [wcPropagates] using hwc
        simp [outcomeOf, hcaught, pendingErr, _SUPPRESSED, isException]
  have hclnotloop : Event.close ∉ (dripLoop delay script).1 :=
    dripLoop_not_mem delay script Event.close (by simp) (by simp [isSleep])
      (by simp [isWriteEv])
  refine ⟨?_, ?_, ?_, ?_, ?_, ?_, ?_⟩
  all_goals rw [tarpit_handler_eq_some delay wid pn script isClosing wcErr
    PyError.cancelled he]
  · rw [houtcome]
  · intro ip2 hmem
    simp only [List.mem_cons, List.mem_append] at hmem
    rcases hmem with h1 | h1 | (h1 | h1) | h1
    · exact Event.noConfusion h1
    · exact Event.noConfusion h1
    · exact dripLoop_not_mem delay script (Event.logLost ip2) (by simp)
        (by simp [isSleep]) (by simp [isWriteEv]) h1
    · rw [hexev] at h1; simp at h1
    · exact finallyEvents_no_logLost _ _ _ _ _ ip2 h1
  · intro ip2 e2 hmem
    simp only [List.mem_cons, List.mem_append] at hmem
    rcases hmem with h1 | h1 | (h1 | h1) | h1
    · exact Event.noConfusion h1
    · exact Event.noConfusion h1
    · exact dripLoop_not_mem delay script (Event.logError ip2 e2) (by simp)
        (by simp [isSleep]) (by simp [isWriteEv]) h1
    · rw [hexev] at h1; simp at h1
    · exact finallyEvents_no_logError _ _ _ _ _ ip2 e2 h1
  · simp [finallyEvents]
  · cases isClosing with
    | false => simp [finallyEvents]
    | true =>
        constructor
        · intro hmem
          simp only [List.mem_cons, List.mem_append] at hmem
          rcases hmem with h1 | h1 | (h1 | h1) | h1
          · exact absurd h1 (by simp)
          · exact absurd h1 (by simp)
          · exact absurd h1 hclnotloop
          · rw [hexev] at h1; simp at h1
          · simp [finallyEvents, hwc] at h1
        · intro hfalse
          exact Bool.noConfusion hfalse
  · simp [finallyEvents]
  · simp [finallyEvents, hwc]

/-- C10 witness: the cancellation behaviour evaluated on a concrete run:
connection 5 from 192.0.2.77:55555 cancelled while suspended in the sleep of
its first iteration, socket not yet closing, clean `wait_closed`. -/
theorem C10_cancellation_witness :
    (tarpit_handler 10 5 (some ("192.0.2.77", 55555))
        [IterResult.cancelledAtSleep 6] false none).2
        = some (HandlerOutcome.propagated PyError.cancelled)
    ∧ (∀ ip2, Event.logLost ip2
        ∉ (tarpit_handler 10 5 (some ("192.0.2.77", 55555))
            [IterResult.cancelledAtSleep 6] false none).1)
    ∧ (∀ ip2 e2, Event.logError ip2 e2
        ∉ (tarpit_handler 10 5 (some ("192.0.2.77", 55555))
            [IterResult.cancelledAtSleep 6] false none).1)
    ∧ Event.regDiscard 5 ∈ (tarpit_handler 10 5 (some ("192.0.2.77", 55555))
        [IterResult.cancelledAtSleep 6] false none).1
    ∧ (Event.close ∈ (tarpit_handler 10 5 (some ("192.0.2.77", 55555))
        [IterResult.cancelledAtSleep 6] false none).1 ↔ false = false)
    ∧ Event.waitClosed ∈ (tarpit_handler 10 5 (some ("192.0.2.77", 55555))
        [IterResult.cancelledAtSleep 6] false none).1
    ∧ Event.logClosed (clientOf (some ("192.0.2.77", 55555))).1
        (clientOf (some ("192.0.2.77", 55555))).2
        ∈ (tarpit_handler 10 5 (some ("192.0.2.77", 55555))
            [IterResult.cancelledAtSleep 6] false none).1 :=
  C10_cancellation 10 5 (some ("192.0.2.77", 55555))
    [IterResult.cancelledAtSleep 6] false none rfl rfl

end AsyncTarpit
